import Mathlib

/-!
Shallow embedding of the ai-article-generator repository
(src/tools.py, src/article_generator.py) and proofs about it.

Python strings are modelled as Lean `String` (a list of characters, matching
Python's code-point semantics for `len` and slicing).  The effectful parts
(environment variables, the HTTPS round trip in `search`, the Firecrawl call
in `scrape`, the agent chat call in `generate`) are modelled by passing the
outcome of the external interaction explicitly as a "world" value; a Python
function that may raise is modelled as returning `Except`.
-/

namespace ArticleGen

/-! ### Model of `json.dumps` for the flat objects this codebase serializes

`tools.py` serializes only flat objects whose values are strings or
integers, with the default separators of Python's `json.dumps`
(item separator `", "`, key separator `": "`).  String escaping follows
`json.encoder`: double quote, backslash and the named control characters
get two-character escapes, all other control characters below U+0020 get a
`\u00XX` escape, everything else is passed through (`ensure_ascii` only
matters above U+007F, which never changes the first character of the
output and is irrelevant to the claims; the payloads proved about here are
ASCII). -/

/-- A JSON value as used by this codebase: a string or a natural number. -/
inductive JVal where
  | jstr (s : String)
  | jnat (n : Nat)
deriving DecidableEq

/-- Lower-case hexadecimal digit. -/
def hexDigit (n : Nat) : Char :=
  if n < 10 then Char.ofNat (48 + n) else Char.ofNat (87 + n)

/-- Escaping of a single character inside a JSON string literal. -/
def escChar (c : Char) : List Char :=
  if c = Char.ofNat 34 then [Char.ofNat 92, Char.ofNat 34]
  else if c = Char.ofNat 92 then [Char.ofNat 92, Char.ofNat 92]
  else if c = Char.ofNat 10 then [Char.ofNat 92, 'n']
  else if c = Char.ofNat 9 then [Char.ofNat 92, 't']
  else if c = Char.ofNat 13 then [Char.ofNat 92, 'r']
  else if c = Char.ofNat 8 then [Char.ofNat 92, 'b']
  else if c = Char.ofNat 12 then [Char.ofNat 92, 'f']
  else if c.toNat < 32 then
    [Char.ofNat 92, 'u', '0', '0', hexDigit (c.toNat / 16), hexDigit (c.toNat % 16)]
  else [c]

/-- Escaping of a character list. -/
def escList : List Char → List Char
  | [] => []
  | c :: cs => escChar c ++ escList cs

/-- Escaping of the contents of a JSON string literal. -/
def jsonEscape (s : String) : String := ⟨escList s.data⟩

/-- Serialization of a single JSON value. -/
def JVal.dumps : JVal → String
  | .jstr s => "\"" ++ jsonEscape s ++ "\""
  | .jnat n => toString n

/-- `json.dumps` on a flat object with the given fields, default separators. -/
def jsonDumpsObj (fields : List (String × JVal)) : String :=
  "\x7b" ++
    String.intercalate ", "
      (fields.map fun f => "\"" ++ jsonEscape f.1 ++ "\": " ++ f.2.dumps) ++
  "\x7d"

/-! ### The environment -/

/-- The environment variables the program reads (`os.environ`).
`none` models an absent variable (lookup raises `KeyError`);
`some ""` models a present but empty one (falsy, the code raises
`ValueError` on it). -/
structure Env where
  serperApiKey : Option String
  firecrawlApiKey : Option String
  openaiApiKey : Option String
deriving DecidableEq

/-! ### tools.py -/

/-- Module-level initialization of `tools.py` (lines 17-28): read
`FIRECRAWL_API_KEY`, re-raise `KeyError` when it is absent, raise
`ValueError` when it is empty, otherwise construct the `FirecrawlApp`
client.  The error string is the exception's message. -/
def toolsModuleInit (env : Env) : Except String Unit :=
  match env.firecrawlApiKey with
  | none => .error "FIRECRAWL_API_KEY"
  | some k =>
    if k = "" then .error "FIRECRAWL_API_KEY is not set in the environment."
    else .ok ()

/-- An HTTP request as issued by `search` via `http.client`. -/
structure HttpRequest where
  method : String
  path : String
  body : String
  headers : List (String × String)
deriving DecidableEq

/-- Outcome of the HTTPS round trip in `search`: either the provider's
response body (the bytes already decoded as UTF-8) or an exception raised
during `conn.request`/`getresponse`/`read`, carrying its message. -/
inductive SearchWorld where
  | ok (respBody : String)
  | netExn (msg : String)
deriving DecidableEq

/-- `search(query, num_results)` from `tools.py` (lines 31-69).  Returns the
list of HTTP requests issued together with the returned string.  The
`except` clauses turn a missing key, an empty key and any other exception
into JSON error strings. -/
def search (env : Env) (w : SearchWorld) (query : String) (numResults : Nat) :
    List HttpRequest × String :=
  match env.serperApiKey with
  | none => ([], jsonDumpsObj [("error", .jstr "SERPER_API_KEY not found")])
  | some key =>
    if key = "" then
      ([], jsonDumpsObj [("error", .jstr "SERPER_API_KEY is not set in the environment.")])
    else
      let payload := jsonDumpsObj [("q", .jstr query), ("num", .jnat numResults)]
      let headers := [("X-API-KEY", key), ("Content-Type", "application/json")]
      let req : HttpRequest := ⟨"POST", "/search", payload, headers⟩
      match w with
      | .ok respBody => ([req], respBody)
      | .netExn msg =>
        ([req], jsonDumpsObj [("error", .jstr ("Search failed: " ++ msg))])

/-- Default `num_results` of `search`. -/
def searchDefaultNumResults : Nat := 5

/-- Outcome of the Firecrawl call in `scrape`: either
`scrape_result.get("markdown", "")` on a successful call, or an exception
with its message. -/
inductive ScrapeWorld where
  | ok (markdown : String)
  | exn (msg : String)
deriving DecidableEq

/-- `max_length` in `scrape`. -/
def scrapeMaxLength : Nat := 10000

/-- The suffix appended to truncated scraped content. -/
def truncationMarker : String := "... (truncated)"

/-- `scrape(url)` from `tools.py` (lines 72-114).  Nonempty markdown content
is returned, truncated to `max_length` characters plus a marker when longer
than `max_length`; empty content yields a JSON warning; an exception yields
a JSON error. -/
def scrape (w : ScrapeWorld) (url : String) : String :=
  match w with
  | .ok markdownContent =>
    if markdownContent ≠ "" then
      if markdownContent.length > scrapeMaxLength then
        markdownContent.take scrapeMaxLength ++ truncationMarker
      else markdownContent
    else jsonDumpsObj [("warning", .jstr "No markdown content found")]
  | .exn msg => jsonDumpsObj [("error", .jstr ("Scraping failed: " ++ msg))]

/-! ### article_generator.py -/

/-- Default `model_name` of `ArticleGenerator.__init__`. -/
def defaultModelName : String := "gpt-4.1"

/-- Default `max_iterations` of `ArticleGenerator.__init__`. -/
def defaultMaxIterations : Nat := 15

/-- The `ReActAgent` session created by `ArticleGenerator.__init__`,
retaining the `max_iterations` it was configured with. -/
structure AgentSession where
  maxIterations : Nat
deriving DecidableEq

/-- `ArticleGenerator.__init__` (lines 27-62).  Importing `tools` runs that
module's initialization first; then `OPENAI_API_KEY` is read (`KeyError`
re-raised when absent, `ValueError` raised when empty) and the LLM client
and the `ReActAgent` are constructed with the given `max_iterations`.
Success yields the created agent session. -/
def articleGeneratorInit (env : Env) (maxIterations : Nat) :
    Except String AgentSession :=
  match toolsModuleInit env with
  | .error e => .error e
  | .ok _ =>
    match env.openaiApiKey with
    | none => .error "OPENAI_API_KEY"
    | some k =>
      if k = "" then .error "OPENAI_API_KEY is not set in the environment."
      else .ok ⟨maxIterations⟩

/-- Python's `str.isspace` characters that `str.strip` removes (space, tab,
newline, carriage return, vertical tab, form feed; the further Unicode
whitespace code points are irrelevant to every statement below and are of
the same kind). -/
def pySpace (c : Char) : Bool :=
  c = ' ' || c = Char.ofNat 9 || c = Char.ofNat 10 || c = Char.ofNat 13 ||
    c = Char.ofNat 11 || c = Char.ofNat 12

/-- Python `str.strip()`: remove leading and trailing whitespace. -/
def pyStrip (s : String) : String :=
  ⟨List.rdropWhile pySpace (s.data.dropWhile pySpace)⟩

/-- Python `str.startswith(pre)`. -/
def pyStartswith (s pre : String) : Bool :=
  pre.data.isPrefixOf s.data

/-- Outcome of `self.agent.chat(prompt)` in `ArticleGenerator.generate`:
either the terminal response text, or an exception with its message. -/
inductive AgentOutcome where
  | response (text : String)
  | exn (msg : String)
deriving DecidableEq

/-- `ArticleGenerator.generate` (lines 64-111), after the prompt is built:
the agent's terminal response text is returned, wrapped in a paragraph tag
when its stripped form does not start with `<`; an exception during the
session is converted to an HTML error paragraph. -/
def generate (o : AgentOutcome) : String :=
  match o with
  | .response articleHtml =>
    if !pyStartswith (pyStrip articleHtml) "<" then
      "<p>" ++ articleHtml ++ "</p>"
    else articleHtml
  | .exn msg => "<p>Error generating article: " ++ msg ++ "</p>"

/-- Spec, section 4.3: the ReAct agent loop itself lives in the
`llama_index` library, not in this repository; the repository only
configures it with `max_iterations`.  Modelled from the spec: the loop
repeats THINKING, ACTING, OBSERVING steps and "the loop continues ...
unless the step counter has reached `max_iterations` ..., in which case the
loop force-terminates".  `done i` says whether the reasoning process emits
a final answer at step `i`; `agentLoopGo done i fuel` returns the total
number of steps the session has performed when it started at step count
`i` with `fuel` steps of budget remaining. -/
def agentLoopGo (done : Nat → Bool) : Nat → Nat → Nat
  | i, 0 => i
  | i, fuel + 1 => if done i then i + 1 else agentLoopGo done (i + 1) fuel

/-- Number of steps a session performs: the loop starts at step 0 with a
budget of the session's `max_iterations`. -/
def agentSessionSteps (done : Nat → Bool) (s : AgentSession) : Nat :=
  agentLoopGo done 0 s.maxIterations

/-- Whether initialization fails (the construction raises). -/
def initFails (env : Env) (n : Nat) : Bool :=
  match articleGeneratorInit env n with
  | .error _ => true
  | .ok _ => false

/-! ### Helper lemmas -/

theorem jsonDumpsObj_length_pos (fields : List (String × JVal)) :
    0 < (jsonDumpsObj fields).length := by
  unfold jsonDumpsObj
  rw [String.length_append, String.length_append]
  have h1 : ("\x7b" : String).length = 1 := rfl
  omega

theorem jsonDumpsObj_ne_empty (fields : List (String × JVal)) :
    jsonDumpsObj fields ≠ "" := by
  intro h
  have := jsonDumpsObj_length_pos fields
  rw [h] at this
  simp at this

theorem scrape_ne_empty (w : ScrapeWorld) (url : String) : scrape w url ≠ "" := by
  cases w with
  | exn msg => exact jsonDumpsObj_ne_empty _
  | ok md =>
    by_cases hmd : md = ""
    · simpa [scrape, hmd] using jsonDumpsObj_ne_empty
        [("warning", .jstr "No markdown content found")]
    · by_cases hlen : md.length > scrapeMaxLength
      · have heq : scrape (.ok md) url = md.take scrapeMaxLength ++ truncationMarker := by
          simp [scrape, hmd, hlen]
        rw [heq]
        intro h
        have := congrArg String.length h
        rw [String.length_append] at this
        have hm : truncationMarker.length = 15 := rfl
        rw [hm] at this
        simp at this
      · simpa [scrape, hmd, hlen] using hmd

/-! ### Theorems for the claims -/

/-- C3: for every scraped page whose extracted nonempty content is longer
than 10,000 characters, `scrape(url)` returns exactly the first 10,000
characters of that content followed by the fixed truncation marker;
content of length at most 10,000 is returned as-is. -/
theorem scrape_truncation (url md : String) (hne : md ≠ "") :
    (md.length > scrapeMaxLength →
      scrape (.ok md) url = md.take scrapeMaxLength ++ truncationMarker) ∧
    (md.length ≤ scrapeMaxLength → scrape (.ok md) url = md) := by
  constructor
  · intro h
    simp [scrape, hne, h]
  · intro h
    have h2 : ¬ md.length > scrapeMaxLength := by omega
    simp [scrape, hne, h2]

/-- A concrete 10,001-character content string. -/
def bigMd : String := ⟨List.replicate 10001 'a'⟩

theorem bigMd_length : bigMd.length = 10001 := by
  unfold bigMd
  rw [String.length_mk, List.length_replicate]

theorem bigMd_ne_empty : bigMd ≠ "" := by
  intro h
  have := congrArg String.length h
  rw [bigMd_length] at this
  simp at this

theorem scrape_truncation_witness :
    scrape (.ok bigMd) "https://example.com" =
      bigMd.take scrapeMaxLength ++ truncationMarker :=
  (scrape_truncation "https://example.com" bigMd bigMd_ne_empty).1
    (by rw [bigMd_length]; decide)

/-- C9: for scraped content whose length is exactly 10,000 characters,
`scrape` returns the content unchanged with no truncation marker: the
truncation branch requires length strictly greater than 10,000. -/
theorem scrape_boundary (url md : String) (h : md.length = scrapeMaxLength) :
    scrape (.ok md) url = md := by
  have hne : md ≠ "" := by
    intro he
    rw [he] at h
    simp [scrapeMaxLength] at h
  have h2 : ¬ md.length > scrapeMaxLength := by omega
  simp [scrape, hne, h2]

/-- A concrete 10,000-character content string. -/
def boundaryMd : String := ⟨List.replicate 10000 'b'⟩

theorem boundaryMd_length : boundaryMd.length = scrapeMaxLength := by
  unfold boundaryMd
  rw [String.length_mk, List.length_replicate]
  rfl

theorem scrape_boundary_witness :
    scrape (.ok boundaryMd) "https://example.org" = boundaryMd :=
  scrape_boundary "https://example.org" boundaryMd boundaryMd_length

/-- C6: a scrape call that succeeds with empty extracted content returns
exactly the JSON-encoded payload with the warning "No markdown content
found" (shown both at the model level and as the literal string), and
`scrape` never returns the empty string. -/
theorem scrape_empty_warning (url : String) (w : ScrapeWorld) :
    scrape (.ok "") url = jsonDumpsObj [("warning", .jstr "No markdown content found")] ∧
    scrape (.ok "") url = "\x7b\"warning\": \"No markdown content found\"\x7d" ∧
    scrape w url ≠ "" :=
  ⟨rfl, rfl, scrape_ne_empty w url⟩

/-- C7: a scrape call in which the provider request raises an exception
returns the JSON-encoded object with an "error" field holding
"Scraping failed: " followed by the exception's message (shown both at the
model level and, for a concrete message, as the literal string). -/
theorem scrape_exn_error (url msg : String) :
    scrape (.exn msg) url = jsonDumpsObj [("error", .jstr ("Scraping failed: " ++ msg))] ∧
    scrape (.exn "boom") url = "\x7b\"error\": \"Scraping failed: boom\"\x7d" :=
  ⟨rfl, rfl⟩

/-- C5: search and scrape turn every failure into a returned value: a
missing search key, an empty search key, a transport failure in search and
a provider failure in scrape each produce a JSON-encoded error object as
the result string (the functions are total, so nothing is raised across
the tool boundary). -/
theorem tool_errors_are_values (fk oa : Option String) (q m url key : String)
    (n : Nat) (w : SearchWorld) (hk : key ≠ "") :
    (search ⟨none, fk, oa⟩ w q n).2 =
      jsonDumpsObj [("error", .jstr "SERPER_API_KEY not found")] ∧
    (search ⟨some "", fk, oa⟩ w q n).2 =
      jsonDumpsObj [("error", .jstr "SERPER_API_KEY is not set in the environment.")] ∧
    (search ⟨some key, fk, oa⟩ (.netExn m) q n).2 =
      jsonDumpsObj [("error", .jstr ("Search failed: " ++ m))] ∧
    scrape (.exn m) url =
      jsonDumpsObj [("error", .jstr ("Scraping failed: " ++ m))] := by
  refine ⟨rfl, rfl, ?_, rfl⟩
  simp [search, hk]

theorem tool_errors_are_values_witness :
    (search ⟨some "sk", none, none⟩ (.netExn "boom") "q" 5).2 =
      jsonDumpsObj [("error", .jstr ("Search failed: " ++ "boom"))] :=
  (tool_errors_are_values none none "q" "boom" "https://example.com" "sk" 5
    (.netExn "boom") (by decide)).2.2.1

/-- C8: `search(q, n)` with a present, nonempty key issues exactly one POST
request to `/search` whose body is the JSON document with fields `q` and
`num`, with the API key carried in the `X-API-KEY` header, and on success
returns the provider's response body verbatim; the body serialization is
also shown literally for a concrete query. -/
theorem search_wire_contract (fk oa : Option String) (key q respBody : String)
    (n : Nat) (hk : key ≠ "") :
    search ⟨some key, fk, oa⟩ (.ok respBody) q n =
      ([⟨"POST", "/search", jsonDumpsObj [("q", .jstr q), ("num", .jnat n)],
        [("X-API-KEY", key), ("Content-Type", "application/json")]⟩], respBody) ∧
    jsonDumpsObj [("q", .jstr "solar power"), ("num", .jnat 5)] =
      "\x7b\"q\": \"solar power\", \"num\": 5\x7d" := by
  refine ⟨?_, rfl⟩
  simp [search, hk]

theorem search_wire_contract_witness :
    search ⟨some "sk", none, none⟩ (.ok "\x7b\"organic\": []\x7d") "solar power" 5 =
      ([⟨"POST", "/search", jsonDumpsObj [("q", .jstr "solar power"), ("num", .jnat 5)],
        [("X-API-KEY", "sk"), ("Content-Type", "application/json")]⟩],
        "\x7b\"organic\": []\x7d") :=
  (search_wire_contract none none "sk" "solar power" "\x7b\"organic\": []\x7d" 5
    (by decide)).1

theorem agentLoopGo_le (done : Nat → Bool) (fuel i : Nat) :
    agentLoopGo done i fuel ≤ i + fuel := by
  induction fuel generalizing i with
  | zero => simp [agentLoopGo]
  | succ f ih =>
    rw [agentLoopGo]
    split
    · omega
    · have := ih (i + 1)
      omega

theorem init_maxIterations (env : Env) (n : Nat) (s : AgentSession)
    (h : articleGeneratorInit env n = .ok s) : s.maxIterations = n := by
  unfold articleGeneratorInit at h
  split at h
  · exact absurd h (by simp)
  · split at h
    · exact absurd h (by simp)
    · split at h
      · exact absurd h (by simp)
      · injection h with h2
        rw [← h2]

/-- C4: a session created by `ArticleGenerator.__init__` with a given
`max_iterations` performs at most that many agent-loop steps before the
loop force-terminates, and the `max_iterations` parameter defaults to 15. -/
theorem agent_loop_bounded (env : Env) (n : Nat) (done : Nat → Bool)
    (s : AgentSession) (h : articleGeneratorInit env n = .ok s) :
    agentSessionSteps done s ≤ n ∧ defaultMaxIterations = 15 := by
  have hm := init_maxIterations env n s h
  have hb : agentSessionSteps done s ≤ s.maxIterations := by
    have := agentLoopGo_le done s.maxIterations 0
    simpa [agentSessionSteps] using this
  rw [hm] at hb
  exact ⟨hb, rfl⟩

theorem agent_loop_bounded_witness :
    agentSessionSteps (fun _ => false) ⟨15⟩ ≤ 15 ∧ defaultMaxIterations = 15 :=
  agent_loop_bounded ⟨some "serper-key", some "fc-key", some "oa-key"⟩ 15
    (fun _ => false) ⟨15⟩ rfl

theorem toolsInit_error_of_firecrawl (env : Env)
    (h : env.firecrawlApiKey = none ∨ env.firecrawlApiKey = some "") :
    ∃ e, toolsModuleInit env = .error e := by
  unfold toolsModuleInit
  rcases h with h | h <;> rw [h]
  · exact ⟨"FIRECRAWL_API_KEY", rfl⟩
  · exact ⟨"FIRECRAWL_API_KEY is not set in the environment.", rfl⟩

theorem init_error_of_toolsInit (env : Env) (n : Nat) (e : String)
    (h : toolsModuleInit env = .error e) :
    articleGeneratorInit env n = .error e := by
  unfold articleGeneratorInit
  rw [h]

theorem init_error_of_openai (env : Env) (n : Nat)
    (h : env.openaiApiKey = none ∨ env.openaiApiKey = some "") :
    ∃ e, articleGeneratorInit env n = .error e := by
  unfold articleGeneratorInit
  cases hti : toolsModuleInit env with
  | error e => exact ⟨e, rfl⟩
  | ok u =>
    rcases h with h | h <;> rw [h]
    · exact ⟨"OPENAI_API_KEY", rfl⟩
    · exact ⟨"OPENAI_API_KEY is not set in the environment.", rfl⟩

theorem initFails_of_error (env : Env) (n : Nat) (e : String)
    (h : articleGeneratorInit env n = .error e) : initFails env n = true := by
  unfold initFails
  rw [h]

/-- C2 counterexample: with the search provider key (`SERPER_API_KEY`)
absent but the other two keys present, initialization succeeds and the
agent session is created, so absence of the search credential does not
make initialization raise. -/
theorem init_succeeds_without_search_key :
    articleGeneratorInit ⟨none, some "fc-key", some "oa-key"⟩ defaultMaxIterations =
      .ok ⟨defaultMaxIterations⟩ := rfl

/-- C2 (amended): if the LLM provider key (`OPENAI_API_KEY`) or the scrape
provider key (`FIRECRAWL_API_KEY`) is absent or empty at startup,
initialization fails deterministically and no agent session is created;
the search provider key is not checked at startup — when it is absent,
`search` instead returns a JSON error value at call time. -/
theorem init_key_failures (env env2 : Env) (n m : Nat) (w : SearchWorld)
    (q : String)
    (h : env.openaiApiKey = none ∨ env.openaiApiKey = some "" ∨
      env.firecrawlApiKey = none ∨ env.firecrawlApiKey = some "")
    (h2 : env2.serperApiKey = none) :
    initFails env n = true ∧
    (search env2 w q m).2 =
      jsonDumpsObj [("error", .jstr "SERPER_API_KEY not found")] := by
  constructor
  · rcases h with h | h | h | h
    · obtain ⟨e, he⟩ := init_error_of_openai env n (Or.inl h)
      exact initFails_of_error env n e he
    · obtain ⟨e, he⟩ := init_error_of_openai env n (Or.inr h)
      exact initFails_of_error env n e he
    · obtain ⟨e, he⟩ := toolsInit_error_of_firecrawl env (Or.inl h)
      exact initFails_of_error env n e (init_error_of_toolsInit env n e he)
    · obtain ⟨e, he⟩ := toolsInit_error_of_firecrawl env (Or.inr h)
      exact initFails_of_error env n e (init_error_of_toolsInit env n e he)
  · simp [search, h2]

theorem init_key_failures_witness :
    initFails ⟨some "serper-key", some "fc-key", none⟩ 15 = true ∧
    (search ⟨none, some "fc-key", some "oa-key"⟩ (.ok "resp") "q" 5).2 =
      jsonDumpsObj [("error", .jstr "SERPER_API_KEY not found")] :=
  init_key_failures ⟨some "serper-key", some "fc-key", none⟩
    ⟨none, some "fc-key", some "oa-key"⟩ 15 5 (.ok "resp") "q" (Or.inl rfl) rfl

theorem pyStrip_cons_of_not_space (c : Char) (l : List Char)
    (hc : pySpace c = false) :
    ∃ l', (pyStrip ⟨c :: l⟩).data = c :: l' := by
  have h1 : (c :: l).dropWhile pySpace = c :: l := by
    simp [List.dropWhile_cons, hc]
  have h2 : (pyStrip ⟨c :: l⟩).data = List.rdropWhile pySpace (c :: l) := by
    simp [pyStrip, h1]
  have hne : List.rdropWhile pySpace (c :: l) ≠ [] := by
    intro h0
    have hall := List.rdropWhile_eq_nil_iff.mp h0
    have hcc := hall c (List.mem_cons_self c l)
    rw [hc] at hcc
    exact absurd hcc (by simp)
  have hpre : List.rdropWhile pySpace (c :: l) <+: c :: l :=
    List.rdropWhile_prefix pySpace (c :: l)
  obtain ⟨t, ht⟩ := hpre
  cases hr : List.rdropWhile pySpace (c :: l) with
  | nil => exact absurd hr hne
  | cons d ds =>
    rw [hr] at ht
    have hd : d = c := by
      have := congrArg List.head? ht
      simpa using this
    refine ⟨ds, ?_⟩
    rw [h2, hr, hd]

theorem pyStartswith_lt_of_data (s : String) (l : List Char)
    (h : s.data = '<' :: l) :
    pyStartswith s "<" = true := by
  unfold pyStartswith
  rw [h]
  simp [List.isPrefixOf]

theorem pyStrip_startswith_lt (s : String) (l : List Char)
    (hs : s.data = '<' :: l) :
    pyStartswith (pyStrip s) "<" = true := by
  have hmk : s = ⟨'<' :: l⟩ := by
    cases s with
    | mk d =>
      have hd : d = '<' :: l := hs
      rw [hd]
  rw [hmk]
  obtain ⟨l', hl'⟩ := pyStrip_cons_of_not_space '<' l (by decide)
  exact pyStartswith_lt_of_data _ l' hl'

theorem wrapped_data (t : String) :
    ("<p>" ++ t ++ "</p>").data = '<' :: ('p' :: '>' :: (t.data ++ "</p>".data)) := by
  rw [String.data_append, String.data_append]
  simp

/-- C1 counterexample: for the terminal response `"  <p>Hi</p>"` (leading
whitespace before the tag), `generate` returns the text unchanged, and the
returned string begins with a space rather than with the character `<`. -/
theorem generate_leading_space_counterexample :
    generate (.response "  <p>Hi</p>") = "  <p>Hi</p>" ∧
    pyStartswith (generate (.response "  <p>Hi</p>")) "<" = false := by
  constructor <;> decide

/-- C1 (amended): for every terminal agent response, the *stripped form* of
the string returned by `ArticleGenerator.generate` begins with `<`: when
the stripped response text does not begin with `<` it is returned wrapped
as `<p>` + text + `</p>`, and a response whose stripped text already
begins with `<` is returned unchanged, so no second wrapping is ever
applied to already-HTML input. -/
theorem generate_output_html (t : String) :
    (pyStartswith (pyStrip t) "<" = false →
      generate (.response t) = "<p>" ++ t ++ "</p>") ∧
    (pyStartswith (pyStrip t) "<" = true → generate (.response t) = t) ∧
    pyStartswith (pyStrip (generate (.response t))) "<" = true := by
  refine ⟨fun h => by simp [generate, h], fun h => by simp [generate, h], ?_⟩
  by_cases h : pyStartswith (pyStrip t) "<" = true
  · rw [show generate (.response t) = t from by simp [generate, h]]
    exact h
  · have hf : pyStartswith (pyStrip t) "<" = false := by
      cases hb : pyStartswith (pyStrip t) "<"
      · rfl
      · exact absurd hb h
    rw [show generate (.response t) = "<p>" ++ t ++ "</p>" from by
      simp [generate, hf]]
    exact pyStrip_startswith_lt _ _ (wrapped_data t)

theorem generate_output_html_witness :
    generate (.response "plain text, no tags") =
      "<p>" ++ "plain text, no tags" ++ "</p>" :=
  (generate_output_html "plain text, no tags").1 (by decide)

/-- C10: for every agent response whose stripped form starts with `<`
(in particular one beginning with whitespace followed by `<`),
`ArticleGenerator.generate` returns the response text exactly unchanged,
including the leading whitespace: the `startswith` check is performed on
the stripped text but the unstripped text is returned. -/
theorem generate_returns_unstripped (t : String)
    (h : pyStartswith (pyStrip t) "<" = true) :
    generate (.response t) = t := by
  simp [generate, h]

theorem generate_returns_unstripped_witness :
    generate (.response "  \n<h1>Title</h1>") = "  \n<h1>Title</h1>" :=
  generate_returns_unstripped "  \n<h1>Title</h1>" (by decide)

end ArticleGen
